import Mathlib

/-!
Verification of the search harvesting pipeline of the xiaohongshu-mcp-python
repository.

The development shallowly embeds the two core source files
`actions/search_model.py` (filter translation) and `actions/search.py`
(harvest orchestrator, item normalizer, dedup accumulator).  Python raw JSON
values are modelled by the inductive `JValue`; Python exceptions are modelled
by `Except`; the mutable locals `seen_ids` / `all_feeds` of `search` are
modelled by explicit state passing (`HarvestState`).  Browser I/O outcomes
(navigation failures, intercepted API responses, the embedded state blob,
scroll-iteration events) are supplied by an explicit `World`, so one `World`
value describes one deterministic interleaving of producer events.

The `config` module of the repository (the pydantic models `Feed`,
`SearchResult` and their parts) is not among the analysed source files; those
record shapes are modelled from the spec (see the doc comments on the
structures below).
-/

namespace XhsSearch

/-! ## Filter model — embedding of `actions/search_model.py` -/

/-- Internal index-based filter option, embedding `InternalFilterOption`
(`search_model.py`): a filter group index, a tag index inside the group, and
the human-readable label. -/
structure InternalFilterOption where
  filters_index : Int
  tags_index : Int
  text : String
deriving DecidableEq, Repr

/-- User-facing filter selection, embedding `FilterOption`
(`search_model.py`).  Each field is an optional label string; the pydantic
defaults of the source are reproduced as field defaults.  (The pydantic
`Literal` constraint on each field is not enforced by the translation code
itself, which looks labels up defensively, so the embedding keeps plain
strings.) -/
structure FilterOption where
  sort_by : Option String := some "综合"
  note_type : Option String := some "不限"
  publish_time : Option String := some "不限"
  search_scope : Option String := some "不限"
  location : Option String := some "不限"
deriving DecidableEq, Repr

/-- Static filter table, embedding `FILTER_OPTIONS_MAP` (`search_model.py`):
group index 1..5 maps to the ordered option list of that group. -/
def FILTER_OPTIONS_MAP (filters_index : Int) : Option (List InternalFilterOption) :=
  if filters_index = 1 then
    some [⟨1, 1, "综合"⟩, ⟨1, 2, "最新"⟩, ⟨1, 3, "最多点赞"⟩, ⟨1, 4, "最多评论"⟩, ⟨1, 5, "最多收藏"⟩]
  else if filters_index = 2 then
    some [⟨2, 1, "不限"⟩, ⟨2, 2, "视频"⟩, ⟨2, 3, "图文"⟩]
  else if filters_index = 3 then
    some [⟨3, 1, "不限"⟩, ⟨3, 2, "一天内"⟩, ⟨3, 3, "一周内"⟩, ⟨3, 4, "半年内"⟩]
  else if filters_index = 4 then
    some [⟨4, 1, "不限"⟩, ⟨4, 2, "已看过"⟩, ⟨4, 3, "未看过"⟩, ⟨4, 4, "已关注"⟩]
  else if filters_index = 5 then
    some [⟨5, 1, "不限"⟩, ⟨5, 2, "同城"⟩, ⟨5, 3, "附近"⟩]
  else
    none

/-- Single-quote character, as produced by the Python f-string
`f"未找到文本 '{text}'"` in the source error messages. -/
def sq : String := "\x27"

/-- Wrap a string in single quotes, as Python f-strings in the source do. -/
def pyQuote (s : String) : String := sq ++ s ++ sq

/-- Embedding of `find_internal_option` (`search_model.py`): look an option up
by group index and label; a `ValueError` is modelled as `Except.error` carrying
the message text. -/
def find_internal_option (filters_index : Int) (text : String) :
    Except String InternalFilterOption :=
  match FILTER_OPTIONS_MAP filters_index with
  | none => .error ("筛选组 " ++ toString filters_index ++ " 不存在")
  | some options =>
    match options.find? (fun o => o.text = text) with
    | some o => .ok o
    | none =>
      .error ("在筛选组 " ++ toString filters_index ++ " 中未找到文本 " ++ pyQuote text)

/-- Python truthiness of an `Optional[str]` value: `None` and the empty string
are falsy (the `if value:` test in `convert_to_internal_filters`). -/
def truthyOptStr : Option String → Bool
  | none => false
  | some s => s ≠ ""

/-- Loop body of `convert_to_internal_filters`: walk the `mapping` list of
(field value, group index, group name) triples, appending each resolved option
and aborting with a wrapped message on the first lookup failure. -/
def convertFieldList :
    List (Option String × Int × String) → Except String (List InternalFilterOption)
  | [] => .ok []
  | (value, index, name) :: rest =>
    if truthyOptStr value then
      match find_internal_option index (value.getD "") with
      | .ok internal => (convertFieldList rest).map (fun l => internal :: l)
      | .error e => .error (name ++ "错误: " ++ e)
    else convertFieldList rest

/-- Embedding of `convert_to_internal_filters` (`search_model.py`): translate
a `FilterOption` into the ordered list of internal options, skipping unset
(falsy) fields and aborting on the first unknown label. -/
def convert_to_internal_filters (filter_option : FilterOption) :
    Except String (List InternalFilterOption) :=
  convertFieldList [
    (filter_option.sort_by, 1, "排序依据"),
    (filter_option.note_type, 2, "笔记类型"),
    (filter_option.publish_time, 3, "发布时间"),
    (filter_option.search_scope, 4, "搜索范围"),
    (filter_option.location, 5, "位置距离")]

/-- Embedding of `validate_internal_filter_option` (`search_model.py`):
re-check that the group index is in 1..5 and the tag index is within the
group's table size. -/
def validate_internal_filter_option (filter_opt : InternalFilterOption) :
    Except String Unit :=
  if filter_opt.filters_index < 1 ∨ filter_opt.filters_index > 5 then
    .error ("无效的筛选组索引 " ++ toString filter_opt.filters_index ++ "，有效范围为 1-5")
  else
    match FILTER_OPTIONS_MAP filter_opt.filters_index with
    | none => .error ("筛选组 " ++ toString filter_opt.filters_index ++ " 不存在")
    | some options =>
      let max_tag_index : Int := options.length
      if filter_opt.tags_index < 1 ∨ filter_opt.tags_index > max_tag_index then
        .error ("筛选组 " ++ toString filter_opt.filters_index ++ " 的标签索引 "
          ++ toString filter_opt.tags_index ++ " 超出范围，有效范围为 1-"
          ++ toString max_tag_index)
      else .ok ()

/-- Group name used in the wrapped error message of
`convert_to_internal_filters` for each group index. -/
def filterGroupName (g : Int) : String :=
  if g = 1 then "排序依据"
  else if g = 2 then "笔记类型"
  else if g = 3 then "发布时间"
  else if g = 4 then "搜索范围"
  else if g = 5 then "位置距离"
  else ""

/-- A selection in which only the field of group `g` is set (to `label`) and
every other field is unset (`None`). -/
def mkSingle (g : Int) (label : String) : FilterOption where
  sort_by := if g = 1 then some label else none
  note_type := if g = 2 then some label else none
  publish_time := if g = 3 then some label else none
  search_scope := if g = 4 then some label else none
  location := if g = 5 then some label else none

/-! ## Raw JSON values and Python semantics helpers -/

/-- A decoded JSON value, as produced by Python's `json.loads` /
`response.json()` (numbers restricted to integers; no claim involves
fractional JSON numbers). -/
inductive JValue where
  | null
  | bool (b : Bool)
  | num (n : Int)
  | str (s : String)
  | arr (xs : List JValue)
  | obj (kvs : List (String × JValue))

/-- Key lookup in a decoded JSON object (Python dict keys are unique, so the
first match is the match). -/
def jlookup (kvs : List (String × JValue)) (k : String) : Option JValue :=
  (kvs.find? (fun kv => kv.1 = k)).map (fun kv => kv.2)

/-- Python `v.get(key, default)`: dict lookup with default; calling `.get` on
a non-dict raises `AttributeError`, modelled as `Except.error`. -/
def pyGet (v : JValue) (k : String) (dflt : JValue) : Except Unit JValue :=
  match v with
  | .obj kvs => .ok ((jlookup kvs k).getD dflt)
  | _ => .error ()

/-- Python truthiness of a decoded JSON value. -/
def pyTruthy : JValue → Bool
  | .null => false
  | .bool b => b
  | .num n => n ≠ 0
  | .str s => s ≠ ""
  | .arr xs => !xs.isEmpty
  | .obj kvs => !kvs.isEmpty

/-- Python `repr` of a decoded JSON value (what `str(...)` produces for
non-string values; escaping inside nested strings is not modelled). -/
def pyRepr : JValue → String
  | .null => "None"
  | .bool true => "True"
  | .bool false => "False"
  | .num n => toString n
  | .str s => pyQuote s
  | .arr xs => "[" ++ String.intercalate ", " (xs.attach.map (fun x => pyRepr x.1)) ++ "]"
  | .obj kvs => "\x7b" ++ String.intercalate ", "
      (kvs.attach.map (fun kv => pyQuote kv.1.1 ++ ": " ++ pyRepr kv.1.2)) ++ "\x7d"
decreasing_by
  all_goals simp_wf
  all_goals try (have hx := List.sizeOf_lt_of_mem x.2; omega)
  all_goals
    (have h1 := List.sizeOf_lt_of_mem kv.2
     rcases kv with ⟨⟨a, b⟩, hm⟩
     simp_all
     omega)

/-- Python builtin `str(...)` on a decoded JSON value: a string renders as
itself, any other value via its repr. -/
def pyStr : JValue → String
  | .str s => s
  | v => pyRepr v

/-- Character-list prefix test (helper for the substring test). -/
def listStartsWith : List Char → List Char → Bool
  | _, [] => true
  | [], _ :: _ => false
  | c :: cs, p :: ps => c == p && listStartsWith cs ps

/-- Character-list substring test (helper for the substring test). -/
def listContainsSub : List Char → List Char → Bool
  | [], pat => listStartsWith [] pat
  | c :: cs, pat => listStartsWith (c :: cs) pat || listContainsSub cs pat

/-- Substring test, Python `pat in s` for strings (used by the listener's
url check). -/
def strContains (s pat : String) : Bool := listContainsSub s.toList pat.toList

/-- Python `key in v` for a string key: dicts test keys, lists test
membership (a string key can only equal a string element; Python cross-type
`==` against the other JSON shapes is `False`), strings test substrings;
other values raise `TypeError`. -/
def pyIn (k : String) (v : JValue) : Except Unit Bool :=
  match v with
  | .obj kvs => .ok (kvs.any (fun kv => kv.1 = k))
  | .arr xs => .ok (xs.any (fun x => match x with | .str s => s = k | _ => false))
  | .str s => .ok (strContains s k)
  | _ => .error ()

/-- Python subscript `v[key]` with a string key: `KeyError` and `TypeError`
are modelled as `Except.error`. -/
def pySubscript (v : JValue) (k : String) : Except Unit JValue :=
  match v with
  | .obj kvs =>
    match jlookup kvs k with
    | some x => .ok x
    | none => .error ()
  | _ => .error ()

/-- Python iteration `for x in v`: lists yield their elements, strings their
1-character substrings, dicts their keys; other values raise `TypeError`. -/
def pyIter (v : JValue) : Except Unit (List JValue) :=
  match v with
  | .arr xs => .ok xs
  | .str s => .ok (s.toList.map (fun c => .str (String.mk [c])))
  | .obj kvs => .ok (kvs.map (fun kv => .str kv.1))
  | _ => .error ()

/-- Python `len(v)`: defined for lists, strings and dicts. -/
def pyLen (v : JValue) : Except Unit Nat :=
  match v with
  | .arr xs => .ok xs.length
  | .str s => .ok s.length
  | .obj kvs => .ok kvs.length
  | _ => .error ()

/-- Validation of a `str`-typed pydantic field: a non-string value is a
validation error (Modelled from the spec: the missing `config` module's
models declare these fields as strings). -/
def asStr : JValue → Except Unit String
  | .str s => .ok s
  | _ => .error ()

/-- Validation of a `bool`-typed pydantic field. -/
def asBool : JValue → Except Unit Bool
  | .bool b => .ok b
  | _ => .error ()

/-- Validation of an `int`-typed pydantic field. -/
def asInt : JValue → Except Unit Int
  | .num n => .ok n
  | _ => .error ()

/-- Validation of an `Optional[str]`-typed pydantic field. -/
def asOptStr : JValue → Except Unit (Option String)
  | .null => .ok none
  | .str s => .ok (some s)
  | _ => .error ()

/-! ## Content-item model

Modelled from the spec: the `config` module holding the pydantic models
(`Feed`, `User`, `InteractInfo`, `Cover`, `Video`, `NoteCard`,
`SearchResult`) is not among the analysed source files; the structures below
follow §3 of the spec (`ContentItem`, `UserRef`, `InteractionCounts`,
`CoverImage`, `VideoInfo`) with the field names used by the orchestrator
source. -/

/-- Modelled from the spec: `UserRef` — `userId`, `nickname` (with a two-name
source fallback), `avatar`, `description`, optional `gender`, optional
`ipLocation`. -/
structure User where
  user_id : String
  nickname : String
  avatar : String
  desc : String
  gender : Option String
  ip_location : Option String

/-- Modelled from the spec: `InteractionCounts` — two booleans and four count
fields kept as display strings (no numeric coercion). -/
structure InteractInfo where
  liked : Bool
  liked_count : String
  collected : Bool
  collected_count : String
  comment_count : String
  share_count : String

/-- Modelled from the spec: `CoverImage` — url, dimensions and file id, all
defaulted when absent. -/
structure Cover where
  url : String
  width : Int
  height : Int
  file_id : String

/-- Modelled from the spec: `VideoInfo` — media descriptor, id, duration,
dimensions, primary/backup stream urls and codec-variant stream lists; the
opaque payloads are kept as raw JSON values. -/
structure Video where
  media : JValue
  video_id : String
  duration : Int
  width : Int
  height : Int
  master_url : String
  backup_urls : JValue
  stream : JValue
  h264 : JValue
  h265 : JValue
  av1 : JValue

/-- Modelled from the spec: the nested `NoteCard` of a content item. -/
structure NoteCard where
  type : String
  display_title : String
  user : User
  interact_info : InteractInfo
  cover : Cover
  images_list : Option JValue
  video : Option Video

/-- Modelled from the spec: `ContentItem` (`Feed` in the source) — platform
id, model type, nested card, and opaque pass-through tokens. -/
structure Feed where
  id : String
  model_type : String
  note_card : NoteCard
  track_id : Option String
  xsec_token : Option String

/-! ## Item normalizer — embedding of `SearchAction._convert_item_to_feed` -/

/-- Body of `SearchAction._convert_item_to_feed` (`search.py`): the code
inside its outer `try`.  Sub-objects are extracted with the same fallback
defaults as the source; every Python expression that can raise lives in the
`Except` monad. -/
def convertItemToFeedErr (item : JValue) : Except Unit Feed := do
  let note_card_data ← pyGet item "noteCard" (.obj [])
  let user_data ← pyGet note_card_data "user" (.obj [])
  let interact_data ← pyGet note_card_data "interactInfo" (.obj [])
  let cover_data ← pyGet note_card_data "cover" (.obj [])
  let video_data ← pyGet note_card_data "video" .null
  let user_id ← asStr (← pyGet user_data "userId" (.str ""))
  let nickDefault ← pyGet user_data "nickName" (.str "")
  let nickname ← asStr (← pyGet user_data "nickname" nickDefault)
  let avatar ← asStr (← pyGet user_data "avatar" (.str ""))
  let desc ← asStr (← pyGet user_data "desc" (.str ""))
  let gender ← asOptStr (← pyGet user_data "gender" .null)
  let ip_location ← asOptStr (← pyGet user_data "ipLocation" .null)
  let user : User := ⟨user_id, nickname, avatar, desc, gender, ip_location⟩
  let liked ← asBool (← pyGet interact_data "liked" (.bool false))
  let liked_count := pyStr (← pyGet interact_data "likedCount" (.str "0"))
  let collected ← asBool (← pyGet interact_data "collected" (.bool false))
  let collected_count := pyStr (← pyGet interact_data "collectedCount" (.str "0"))
  let comment_count := pyStr (← pyGet interact_data "commentCount" (.str "0"))
  let share_count := pyStr (← pyGet interact_data "sharedCount" (.str "0"))
  let interact_info : InteractInfo :=
    ⟨liked, liked_count, collected, collected_count, comment_count, share_count⟩
  let url ← asStr (← pyGet cover_data "url" (.str ""))
  let width ← asInt (← pyGet cover_data "width" (.num 0))
  let height ← asInt (← pyGet cover_data "height" (.num 0))
  let file_id ← asStr (← pyGet cover_data "fileId" (.str ""))
  let cover : Cover := ⟨url, width, height, file_id⟩
  let video : Option Video ←
    if pyTruthy video_data then do
      let media ← pyGet video_data "media" (.obj [])
      let video_id ← asStr (← pyGet video_data "videoId" (.str ""))
      let duration ← asInt (← pyGet video_data "duration" (.num 0))
      let vwidth ← asInt (← pyGet video_data "width" (.num 0))
      let vheight ← asInt (← pyGet video_data "height" (.num 0))
      let master_url ← asStr (← pyGet video_data "masterUrl" (.str ""))
      let backup_urls ← pyGet video_data "backupUrls" (.arr [])
      let stream ← pyGet video_data "stream" (.obj [])
      let h264 ← pyGet video_data "h264" (.arr [])
      let h265 ← pyGet video_data "h265" (.arr [])
      let av1 ← pyGet video_data "av1" (.arr [])
      pure (some ⟨media, video_id, duration, vwidth, vheight, master_url,
        backup_urls, stream, h264, h265, av1⟩)
    else
      pure none
  let ntype ← asStr (← pyGet note_card_data "type" (.str ""))
  let display_title ← asStr (← pyGet note_card_data "displayTitle" (.str ""))
  let note_card : NoteCard := ⟨ntype, display_title, user, interact_info, cover, none, video⟩
  let fid ← asStr (← pyGet item "id" (.str ""))
  let model_type ← asStr (← pyGet item "modelType" (.str ""))
  let track_id ← asOptStr (← pyGet item "trackId" .null)
  let xsec_token ← asOptStr (← pyGet item "xsecToken" .null)
  return ⟨fid, model_type, note_card, track_id, xsec_token⟩

/-- Embedding of `SearchAction._convert_item_to_feed` (`search.py`): the
outer `try/except Exception` turns every internal failure into `None`, so the
normalizer itself is total and never raises. -/
def convert_item_to_feed (item : JValue) : Option Feed :=
  (convertItemToFeedErr item).toOption

/-! ## Dedup accumulator — the shared mutable session state of `search` -/

/-- The orchestrator-local harvest session state: the mutable locals
`seen_ids` (a Python set, modelled by a list used only through membership)
and `all_feeds` of `SearchAction.search`. -/
structure HarvestState where
  seen_ids : List String
  all_feeds : List Feed

/-- The empty session state created at the start of `search` (lines 45-46). -/
def initialHarvestState : HarvestState := ⟨[], []⟩

/-- The insertion step shared by both producers (`search.py` lines 62-64 and
145-147): `if feed.id not in seen_ids: seen_ids.add(feed.id);
all_feeds.append(feed)`. -/
def offerFeed (st : HarvestState) (feed : Feed) : HarvestState :=
  if st.seen_ids.contains feed.id then st
  else ⟨feed.id :: st.seen_ids, st.all_feeds ++ [feed]⟩

/-- Loop body of the listener (`for item in items` in `handle_response`,
lines 59-65): normalize the raw record, then insert when the result is
non-`None` (`if feed and ...`; a pydantic model instance is always truthy)
and its id is fresh. -/
def offerRawItem (st : HarvestState) (item : JValue) : HarvestState :=
  match convert_item_to_feed item with
  | some feed => offerFeed st feed
  | none => st

/-! ## Network listener — embedding of `handle_response` -/

/-- An intercepted network response: its url, HTTP status, and decoded JSON
body (`none` models `response.json()` raising). -/
structure Response where
  url : String
  status : Int
  body : Option JValue

/-- Body of the inner `try` of `handle_response` once the decoded body
`data` is available: the guard `data and "data" in data and "items" in
data["data"]`, then the normalization/insert loop over
`data["data"]["items"]`. -/
def handleResponseData (st : HarvestState) (data : JValue) :
    Except Unit HarvestState := do
  if pyTruthy data then
    let hasData ← pyIn "data" data
    if hasData then
      let dataData ← pySubscript data "data"
      let hasItems ← pyIn "items" dataData
      if hasItems then
        let items ← pySubscript dataData "items"
        let xs ← pyIter items
        return xs.foldl offerRawItem st
      else return st
    else return st
  else return st

/-- Embedding of the response listener `handle_response` (`search.py` lines
49-69): only responses whose url contains the search-API path and whose
status is 200 are processed; both `except` clauses (lines 66-69) swallow
every error, and every failable step precedes the first mutation, so a
failed response leaves the state unchanged. -/
def handle_response (st : HarvestState) (resp : Response) : HarvestState :=
  if strContains resp.url "/api/sns/web/v1/search/notes" && (resp.status == 200) then
    match resp.body with
    | none => st
    | some data =>
      match handleResponseData st data with
      | .ok st2 => st2
      | .error _ => st
  else st

/-! ## Search result shape -/

/-- Modelled from the spec: `HarvestResult` (`SearchResult` of the missing
`config` module) — `items`, `hasMore`, `total` (§4.4), plus the
`success`/`message` channel used by the filter-error return of `search`.
The source constructs it with keyword subsets, so every field carries a
default; the defaults are fixed from the spec's stated outcomes (empty
items / `hasMore=false` unless set). -/
structure SearchResult where
  items : List Feed := []
  has_more : Bool := false
  total : Nat := 0
  success : Bool := true
  message : String := ""

/-! ## State-blob parser — embedding of `_parse_search_results_from_state` -/

/-- Body of the `try` of `_parse_search_results_from_state` (`search.py`
lines 220-248) after `json.loads`: read `search.feeds._value` with object
defaults, normalize each entry (a per-record failure just skips the record),
and build the page result with `has_more = len(feeds_value) >= 20` and
`total = len(feeds)`.  The diagnostic `_save_search_data_to_file` call only
writes files and swallows its own errors, so it does not affect the
result. -/
def parseStateBody (state_data : JValue) : Except Unit SearchResult := do
  let search_data ← pyGet state_data "search" (.obj [])
  let feeds_data ← pyGet search_data "feeds" (.obj [])
  let feeds_value ← pyGet feeds_data "_value" (.arr [])
  let xs ← pyIter feeds_value
  let feeds := xs.foldl (fun acc item =>
    match convert_item_to_feed item with
    | some f => acc ++ [f]
    | none => acc) ([] : List Feed)
  let n ← pyLen feeds_value
  return { items := feeds, has_more := decide (n ≥ 20), total := feeds.length }

/-- Embedding of `_parse_search_results_from_state` (`search.py`), with the
`json.loads` outcome supplied as input (`none` models a `JSONDecodeError`);
both `except` clauses (lines 250-255) return the empty result. -/
def parse_search_results_from_state (parsed : Option JValue) : SearchResult :=
  match parsed with
  | none => { items := [], has_more := false, total := 0 }
  | some state_data =>
    match parseStateBody state_data with
    | .ok r => r
    | .error _ => { items := [], has_more := false, total := 0 }

/-! ## Filter application — embedding of `SearchAction._apply_filters` -/

/-- The `for filter_option in internal_filters` loop of
`SearchAction._apply_filters` (`search.py` lines 420-428), with Python's
list-iterator semantics made explicit: the iterator keeps an index `i` into
the (mutated) list; an option with `tags_index != 1` is validated (the
`except ValueError: continue` leaves the list unchanged either way), while
an option with `tags_index == 1` is removed in place via `list.remove`,
which deletes the first occurrence and shifts later elements one slot left
under the live iterator.  `fuel` bounds the iteration count; `l.length`
steps always suffice because the index grows by one per step and the list
never grows (`applyFiltersLoop_fuel_stable` below). -/
def applyFiltersLoop (fuel : Nat) (l : List InternalFilterOption) (i : Nat) :
    List InternalFilterOption :=
  match fuel with
  | 0 => l
  | fuel + 1 =>
    if h : i < l.length then
      let o := l.get ⟨i, h⟩
      if o.tags_index ≠ 1 then
        let _ := validate_internal_filter_option o
        applyFiltersLoop fuel l (i + 1)
      else
        applyFiltersLoop fuel (l.erase o) (i + 1)
    else l

/-- Embedding of `SearchAction._apply_filters` (`search.py` lines 411-429):
translate the selection (a `ValueError` from translation propagates to the
caller) and run the elision loop over the resulting list. -/
def apply_filters (filters : FilterOption) : Except String (List InternalFilterOption) :=
  (convert_to_internal_filters filters).map (fun l => applyFiltersLoop l.length l 0)

/-! ## Harvest orchestrator — embedding of `SearchAction.search` -/

/-- Outcome of one iteration of the scroll loop: the search-API responses
delivered to the listener during the iteration's awaits (scroll, delay,
network-idle, page-stable), followed by whether one of those awaited calls
then raises (timeout or otherwise). -/
structure ScrollIter where
  responses : List Response
  fail : Bool

/-- One deterministic execution environment for a `search` call — the
outcomes of every external browser interaction, fixing one interleaving of
producer events.
* `navFail`: the initial `goto` / `wait_for_load_state` (lines 76-79)
  raises.  Responses arriving that early are lost: the listener is only
  registered at line 103.
* `filterUIFail`: one of the filter-panel interactions (hover, bounded
  wait, clicks, lines 84-93) raises a non-`ValueError` error.
* `preLoopResponses`: responses delivered after listener registration and
  before the scroll loop (during the waits of lines 106-140).
* `preLoopFail`: the `wait_for_load_state` of line 106 raises.
* `initialState`: outcome of the `__INITIAL_STATE__` extraction (lines
  108-150): `none` when the bounded wait or evaluation fails or yields an
  empty string (all caught non-fatally at line 149); `some p` when a state
  JSON string was retrieved, with `p` its `json.loads` outcome.
* `scrollIters`: per-iteration outcomes of the scroll loop; iterations
  beyond the end of the list succeed and deliver no responses. -/
structure World where
  navFail : Bool
  filterUIFail : Bool
  preLoopResponses : List Response
  preLoopFail : Bool
  initialState : Option (Option JValue)
  scrollIters : List ScrollIter

/-- Session state after the pre-loop responses have been consumed by the
listener. -/
def stateAfterPreLoop (w : World) : HarvestState :=
  w.preLoopResponses.foldl handle_response initialHarvestState

/-- Session state after the initial state-blob pass (lines 108-150): each
parsed item is offered through the dedup check of lines 145-147; a failed
extraction contributes nothing. -/
def stateAfterInitialBlob (w : World) : HarvestState :=
  match w.initialState with
  | none => stateAfterPreLoop w
  | some parsed =>
    (parse_search_results_from_state parsed).items.foldl offerFeed (stateAfterPreLoop w)

/-- Listener activity during one scroll iteration. -/
def scrollStep (st : HarvestState) (it : ScrollIter) : HarvestState :=
  it.responses.foldl handle_response st

/-- Session state after the first `k` scroll iterations. -/
def stateUpTo (w : World) (k : Nat) : HarvestState :=
  (w.scrollIters.take k).foldl scrollStep (stateAfterInitialBlob w)

/-- Outcome of the `try` body of `search`: a returned result, an exception
carrying the `all_feeds` local at the raise point, or a run that never
leaves the scroll loop. -/
inductive SearchOutcome where
  | result (r : SearchResult)
  | raised (feeds : List Feed)
  | diverge

/-- Python slice `l[:m]`, including the negative-bound semantics
(`stop = max(0, len + m)` for `m < 0`). -/
def pySliceTo (l : List Feed) (m : Int) : List Feed :=
  if 0 ≤ m then l.take m.toNat else l.take ((l.length : Int) + m).toNat

/-- Lines 167-176 of `search.py`: truncate `all_feeds` to `max_items` when it
exceeds it, then build the success result with `has_more=True` and
`total = len(all_feeds)`. -/
def finalizeResult (st : HarvestState) (max_items : Int) : SearchResult :=
  let all_feeds :=
    if (st.all_feeds.length : Int) > max_items then pySliceTo st.all_feeds max_items
    else st.all_feeds
  { items := all_feeds, has_more := true, total := all_feeds.length }

/-- The scroll loop of `search` (`while len(all_feeds) < max_items`, lines
152-166): each iteration scrolls, waits, and lets the listener consume the
iteration's responses; a raise inside the iteration escapes to the outer
handlers with the state accumulated so far; when the guard fails the success
result is returned.  `fuel` bounds the number of modelled iterations;
exhausting it yields `diverge` (a run the Python code would still be
executing, since the loop itself has no other exit). -/
def scrollLoop (max_items : Int) (fuel : Nat) (st : HarvestState)
    (iters : List ScrollIter) : SearchOutcome :=
  if (st.all_feeds.length : Int) < max_items then
    match fuel with
    | 0 => .diverge
    | fuel + 1 =>
      match iters with
      | [] => scrollLoop max_items fuel st []
      | it :: rest =>
        let st2 := scrollStep st it
        if it.fail then .raised st2.all_feeds
        else scrollLoop max_items fuel st2 rest
  else .result (finalizeResult st max_items)

/-- Phase of `search` after the filter stage: listener registration, the
pre-loop wait, the initial state-blob pass, then the scroll loop. -/
def searchMainPhase (w : World) (max_items : Int) (fuel : Nat) : SearchOutcome :=
  if w.preLoopFail then .raised (stateAfterPreLoop w).all_feeds
  else scrollLoop max_items fuel (stateAfterInitialBlob w) w.scrollIters

/-- The `try` body of `SearchAction.search` under a given world, paired with
the trace of clicked filter options (the `(filters_index, tags_index)` pairs
of the `nth-child` selectors, lines 86-93).  A `ValueError` from
`_apply_filters` takes the early return of lines 94-100 (Modelled from the
spec: the source passes `success=False, message=str(e), feeds=[]`, which the
spec describes as a result carrying empty items and `hasMore=false` with the
error surfaced); a non-`ValueError` failure of the filter UI interaction
escapes to the outer handlers. -/
def searchWithTrace (w : World) (filters : Option FilterOption) (max_items : Int)
    (fuel : Nat) : SearchOutcome × List (Int × Int) :=
  if w.navFail then (.raised initialHarvestState.all_feeds, [])
  else
    match filters with
    | some f =>
      match apply_filters f with
      | .error e =>
        (.result { success := false, message := e, items := [], has_more := false, total := 0 }, [])
      | .ok internal_filters =>
        if w.filterUIFail then (.raised initialHarvestState.all_feeds, [])
        else (searchMainPhase w max_items fuel,
          internal_filters.map (fun o => (o.filters_index, o.tags_index)))
    | none => (searchMainPhase w max_items fuel, [])

/-- Embedding of `SearchAction.search` (`search.py` lines 30-191): the
`except` clauses of lines 178-185 convert both timeout and unexpected
exceptions into a partial result carrying the accumulated `all_feeds` with
`has_more=False, total=0`; `none` is returned only when the scroll loop
exhausts its fuel without meeting the target (a run the Python code would
still be executing). -/
def search (w : World) (filters : Option FilterOption) (max_items : Int)
    (fuel : Nat) : Option SearchResult :=
  match (searchWithTrace w filters max_items fuel).1 with
  | .result r => some r
  | .raised feeds => some { items := feeds, has_more := false, total := 0 }
  | .diverge => none

/-- The sequence of filter options the orchestrator actually clicks in a
run. -/
def searchClicks (w : World) (filters : Option FilterOption) (max_items : Int)
    (fuel : Nat) : List (Int × Int) :=
  (searchWithTrace w filters max_items fuel).2

/-! ## Spec-side characterizations and concrete fixtures -/

/-- Spec-side characterization of the dedup accumulator, following the
spec's words ("first occurrence wins; insertion order is preserved as
encounter order"): keep, for each distinct id not yet seen, the
first-offered item, in first-offer order. -/
def firstOffers : List String → List Feed → List Feed
  | _, [] => []
  | seen, f :: fs =>
    if f.id ∈ seen then firstOffers seen fs
    else f :: firstOffers (f.id :: seen) fs

/-- The note card produced by the normalizer for a record whose `noteCard`
sub-object is missing: every field takes its fallback default. -/
def defaultNoteCard : NoteCard :=
  ⟨"", "", ⟨"", "", "", "", none, none⟩, ⟨false, "0", false, "0", "0", "0"⟩,
    ⟨"", 0, 0, ""⟩, none, none⟩

/-- A content item with a given id and all other fields at their normalizer
defaults (fixture for concrete runs). -/
def mkFeedId (i : String) : Feed := ⟨i, "", defaultNoteCard, none, none⟩

/-- A raw record carrying only an id (fixture). -/
def rawRecord (i : String) : JValue := .obj [("id", .str i)]

/-- A search-API response body holding the given raw items (fixture). -/
def mkItemsBody (items : List JValue) : JValue :=
  .obj [("data", .obj [("items", .arr items)])]

/-- A successful search-API response holding the given raw items
(fixture). -/
def mkResp (items : List JValue) : Response :=
  ⟨"/api/sns/web/v1/search/notes", 200, some (mkItemsBody items)⟩

/-- A world in which every browser interaction succeeds and nothing is
delivered (fixture). -/
def quietWorld : World := ⟨false, false, [], false, none, []⟩

/-- Whether scroll iteration `k` of a world raises (iterations beyond the
modelled list always succeed). -/
def iterFail (w : World) (k : Nat) : Bool :=
  (w.scrollIters[k]?.map ScrollIter.fail).getD false

/-- The filter stage of `search` completes without raising: either no
selection was supplied, or translation succeeded and the filter-panel
interaction did not raise. -/
def filterStagePasses (w : World) (f : Option FilterOption) : Prop :=
  match f with
  | none => True
  | some ff => (∃ l, apply_filters ff = .ok l) ∧ w.filterUIFail = false

/-- A world whose first scroll iteration raises (fixture). -/
def failWorld : World := ⟨false, false, [], false, none, [⟨[], true⟩]⟩

/-- A world whose pre-loop phase delivers one search-API response holding a
single, completely empty raw record (fixture). -/
def emptyRecordWorld : World := ⟨false, false, [mkResp [.obj []]], false, none, []⟩

/-- A world whose pre-loop phase delivers one search-API response holding two
id-only raw records (fixture). -/
def twoRecordWorld : World :=
  ⟨false, false, [mkResp [rawRecord "a", rawRecord "b"]], false, none, []⟩

/-- A top-level field of a raw record is absent or holds a string (the shapes
under which a `str`-typed pydantic field accepts the normalizer's extracted
value). -/
def okStrField (kvs : List (String × JValue)) (k : String) : Bool :=
  match jlookup kvs k with
  | none => true
  | some (.str _) => true
  | some _ => false

/-- A top-level field of a raw record is absent, null, or a string (the
shapes an `Optional[str]`-typed pydantic field accepts). -/
def okOptStrField (kvs : List (String × JValue)) (k : String) : Bool :=
  match jlookup kvs k with
  | none => true
  | some .null => true
  | some (.str _) => true
  | some _ => false

/-- The string a `str`-typed pydantic field receives from the normalizer's
defaulted extraction of a well-typed top-level record field. -/
def strFieldValue (kvs : List (String × JValue)) (k : String) : String :=
  match jlookup kvs k with
  | some (.str s) => s
  | _ => ""

/-- The value an `Optional[str]`-typed pydantic field receives from the
normalizer's extraction of a well-typed top-level record field. -/
def optStrFieldValue (kvs : List (String × JValue)) (k : String) : Option String :=
  match jlookup kvs k with
  | some (.str s) => some s
  | _ => none

/-! ## Helper lemmas -/

/-- A successfully normalized record is offered to the dedup insert. -/
theorem offerRawItem_some (st : HarvestState) (item : JValue) (f : Feed)
    (h : convert_item_to_feed item = some f) :
    offerRawItem st item = offerFeed st f := by
  simp [offerRawItem, h]

/-- Offering to the empty session always inserts. -/
theorem offerFeed_initial (f : Feed) :
    offerFeed initialHarvestState f = ⟨[f.id], [f]⟩ := by
  simp [offerFeed, initialHarvestState]

/-- Offering an already-seen id leaves the session state unchanged. -/
theorem offerFeed_of_seen (st : HarvestState) (f : Feed)
    (h : f.id ∈ st.seen_ids) : offerFeed st f = st := by
  simp [offerFeed, h]

/-- The seen-id set after a fold of offers is the union of the initial seen
ids and the offered ids. -/
theorem foldl_offerFeed_seen (offers : List Feed) :
    ∀ (st : HarvestState) (x : String),
      x ∈ (offers.foldl offerFeed st).seen_ids ↔
        x ∈ st.seen_ids ∨ x ∈ offers.map Feed.id := by
  induction offers with
  | nil => intro st x; simp
  | cons f fs ih =>
    intro st x
    simp only [List.foldl_cons, List.map_cons, List.mem_cons]
    rw [ih]
    by_cases h : f.id ∈ st.seen_ids
    · rw [offerFeed_of_seen st f h]
      constructor
      · rintro (hx | hx)
        · exact Or.inl hx
        · exact Or.inr (Or.inr hx)
      · rintro (hx | hx | hx)
        · exact Or.inl hx
        · exact Or.inl (hx ▸ h)
        · exact Or.inr hx
    · have : offerFeed st f = ⟨f.id :: st.seen_ids, st.all_feeds ++ [f]⟩ := by
        simp [offerFeed, h]
      rw [this]
      simp only [List.mem_cons]
      tauto

/-- The accumulated sequence of a fold of offers extends the initial
sequence with exactly the first-offered item of each fresh id, in
first-offer order. -/
theorem foldl_offerFeed_firstOffers (offers : List Feed) :
    ∀ st : HarvestState,
      (offers.foldl offerFeed st).all_feeds =
        st.all_feeds ++ firstOffers st.seen_ids offers := by
  induction offers with
  | nil => intro st; simp [firstOffers]
  | cons f fs ih =>
    intro st
    simp only [List.foldl_cons, firstOffers]
    by_cases h : f.id ∈ st.seen_ids
    · rw [offerFeed_of_seen st f h, if_pos h, ih]
    · have hst : offerFeed st f = ⟨f.id :: st.seen_ids, st.all_feeds ++ [f]⟩ := by
        simp [offerFeed, h]
      rw [if_neg h, hst, ih]
      simp

/-- A record whose normalization fails contributes nothing to the session
state. -/
theorem offerRawItem_of_failed (st : HarvestState) (item : JValue)
    (h : convert_item_to_feed item = none) : offerRawItem st item = st := by
  simp [offerRawItem, h]

/-- Dedup invariant of a single offer: ids of the accumulated sequence stay
inside the seen set and pairwise distinct. -/
theorem offerFeed_invariant (st : HarvestState) (f : Feed)
    (h1 : ∀ x ∈ st.all_feeds.map Feed.id, x ∈ st.seen_ids)
    (h2 : (st.all_feeds.map Feed.id).Nodup) :
    (∀ x ∈ (offerFeed st f).all_feeds.map Feed.id, x ∈ (offerFeed st f).seen_ids) ∧
      ((offerFeed st f).all_feeds.map Feed.id).Nodup := by
  by_cases h : st.seen_ids.contains f.id
  · simp only [offerFeed, h, if_pos]
    exact ⟨h1, h2⟩
  · have hmem : f.id ∉ st.seen_ids := by
      simpa using h
    simp only [offerFeed, h, Bool.false_eq_true, if_false]
    constructor
    · intro x hx
      simp only [List.map_append, List.map_cons, List.map_nil, List.mem_append,
        List.mem_cons] at hx
      rcases hx with hx | hx | hx
      · exact List.mem_cons_of_mem _ (h1 x hx)
      · exact hx ▸ List.mem_cons_self _ _
      · cases hx
    · simp only [List.map_append, List.map_cons, List.map_nil]
      rw [List.nodup_append]
      refine ⟨h2, List.nodup_singleton _, ?_⟩
      intro x hx hx'
      simp only [List.mem_singleton] at hx'
      exact hmem (hx' ▸ h1 x hx)

/-- Dedup invariant of a fold of offers. -/
theorem foldl_offerFeed_invariant (offers : List Feed) :
    ∀ st : HarvestState,
      (∀ x ∈ st.all_feeds.map Feed.id, x ∈ st.seen_ids) →
      (st.all_feeds.map Feed.id).Nodup →
      (∀ x ∈ (offers.foldl offerFeed st).all_feeds.map Feed.id,
          x ∈ (offers.foldl offerFeed st).seen_ids) ∧
        ((offers.foldl offerFeed st).all_feeds.map Feed.id).Nodup := by
  induction offers with
  | nil => intro st h1 h2; exact ⟨h1, h2⟩
  | cons f fs ih =>
    intro st h1 h2
    obtain ⟨h1', h2'⟩ := offerFeed_invariant st f h1 h2
    exact ih (offerFeed st f) h1' h2'

/-- One extra unit of fuel changes nothing once the fuel covers the
remaining index range: the elision loop of `_apply_filters` runs at most
`l.length - i` iterations (the index grows by one per step and the list
never grows). -/
theorem applyFiltersLoop_fuel_stable :
    ∀ (fuel : Nat) (l : List InternalFilterOption) (i : Nat),
      l.length ≤ fuel + i →
      applyFiltersLoop (fuel + 1) l i = applyFiltersLoop fuel l i := by
  intro fuel
  induction fuel with
  | zero =>
    intro l i h
    simp only [applyFiltersLoop]
    rw [dif_neg (by omega)]
  | succ fuel ih =>
    intro l i h
    by_cases hi : i < l.length
    · simp only [applyFiltersLoop]
      rw [dif_pos hi, dif_pos hi]
      by_cases ht : (l.get ⟨i, hi⟩).tags_index ≠ 1
      · rw [if_pos ht, if_pos ht]
        exact ih l (i + 1) (by omega)
      · rw [if_neg ht, if_neg ht]
        refine ih _ (i + 1) ?_
        have := List.length_erase_of_mem (List.get_mem l i hi)
        omega
    · simp only [applyFiltersLoop]
      rw [dif_neg hi, dif_neg hi]

/-- Unfolding the session state by one scroll iteration (modelled
iterations). -/
theorem stateUpTo_succ (w : World) (k : Nat) (h : k < w.scrollIters.length) :
    stateUpTo w (k + 1) = scrollStep (stateUpTo w k) w.scrollIters[k] := by
  rw [stateUpTo, stateUpTo, List.take_succ, List.getElem?_eq_getElem h]
  simp only [Option.toList_some, List.foldl_append, List.foldl_cons, List.foldl_nil]

/-- Beyond the modelled iterations the session state is constant. -/
theorem stateUpTo_stable (w : World) (k : Nat) (h : w.scrollIters.length ≤ k) :
    stateUpTo w (k + 1) = stateUpTo w k := by
  rw [stateUpTo, stateUpTo, List.take_of_length_le (by omega),
    List.take_of_length_le (by omega)]

/-- Running the scroll loop is the same as first replaying `k` successful,
still-unsatisfied iterations and then continuing from the reached state. -/
theorem scrollLoop_shift (w : World) (mi : Int) :
    ∀ (k fuel : Nat), k ≤ fuel →
      (∀ j < k, ((stateUpTo w j).all_feeds.length : Int) < mi) →
      (∀ j < k, iterFail w j = false) →
      scrollLoop mi fuel (stateAfterInitialBlob w) w.scrollIters =
        scrollLoop mi (fuel - k) (stateUpTo w k) (w.scrollIters.drop k) := by
  intro k
  induction k with
  | zero => intro fuel _ _ _; rfl
  | succ k ih =>
    intro fuel hk hlt hnf
    rw [ih fuel (by omega) (fun j hj => hlt j (by omega)) (fun j hj => hnf j (by omega))]
    have hguard : ((stateUpTo w k).all_feeds.length : Int) < mi := hlt k (by omega)
    have hfuel : fuel - k = (fuel - (k + 1)) + 1 := by omega
    rw [hfuel]
    by_cases hlen : k < w.scrollIters.length
    · rw [List.drop_eq_getElem_cons hlen, scrollLoop.eq_def, if_pos hguard]
      have hfl : w.scrollIters[k].fail = false := by
        have := hnf k (by omega)
        simpa [iterFail, List.getElem?_eq_getElem hlen] using this
      show (if w.scrollIters[k].fail = true then _ else _) = _
      rw [hfl, if_neg (by simp), stateUpTo_succ w k hlen]
    · have hd1 : w.scrollIters.drop k = [] := List.drop_eq_nil_of_le (by omega)
      have hd2 : w.scrollIters.drop (k + 1) = [] := List.drop_eq_nil_of_le (by omega)
      rw [hd1, hd2, stateUpTo_stable w k (by omega), scrollLoop.eq_def, if_pos hguard]

/-- When the count target is met after `k` successful iterations, the scroll
loop returns the finalized (truncated) success result. -/
theorem scrollLoop_exit (w : World) (mi : Int) (k fuel : Nat) (hk : k ≤ fuel)
    (hlt : ∀ j < k, ((stateUpTo w j).all_feeds.length : Int) < mi)
    (hnf : ∀ j < k, iterFail w j = false)
    (hexit : ¬ ((stateUpTo w k).all_feeds.length : Int) < mi) :
    scrollLoop mi fuel (stateAfterInitialBlob w) w.scrollIters =
      .result (finalizeResult (stateUpTo w k) mi) := by
  rw [scrollLoop_shift w mi k fuel hk hlt hnf, scrollLoop.eq_def, if_neg hexit]

/-- When iteration `k` raises while the target is still unmet, the scroll
loop escapes with the state accumulated through iteration `k`'s responses. -/
theorem scrollLoop_fail (w : World) (mi : Int) (k fuel : Nat) (hk : k < fuel)
    (hlt : ∀ j ≤ k, ((stateUpTo w j).all_feeds.length : Int) < mi)
    (hnf : ∀ j < k, iterFail w j = false)
    (hfail : iterFail w k = true) :
    scrollLoop mi fuel (stateAfterInitialBlob w) w.scrollIters =
      .raised (stateUpTo w (k + 1)).all_feeds := by
  have hlen : k < w.scrollIters.length := by
    by_contra hc
    have hnone : w.scrollIters[k]? = none := List.getElem?_eq_none (by omega)
    simp [iterFail, hnone] at hfail
  rw [scrollLoop_shift w mi k fuel (by omega) (fun j hj => hlt j (by omega)) hnf]
  have hfuel : fuel - k = (fuel - (k + 1)) + 1 := by omega
  rw [hfuel, List.drop_eq_getElem_cons hlen, scrollLoop.eq_def, if_pos (hlt k le_rfl)]
  have hfl : w.scrollIters[k].fail = true := by
    simpa [iterFail, List.getElem?_eq_getElem hlen] using hfail
  show (if w.scrollIters[k].fail = true then _ else _) = _
  rw [hfl, if_pos rfl, stateUpTo_succ w k hlen]

/-- When the count target is never met and no iteration raises, the scroll
loop exhausts any amount of fuel. -/
theorem scrollLoop_diverge (w : World) (mi : Int)
    (hstay : ∀ k, ((stateUpTo w k).all_feeds.length : Int) < mi)
    (hnofail : ∀ k, iterFail w k = false) (fuel : Nat) :
    scrollLoop mi fuel (stateAfterInitialBlob w) w.scrollIters = .diverge := by
  rw [scrollLoop_shift w mi fuel fuel le_rfl (fun j _ => hstay j) (fun j _ => hnofail j),
    Nat.sub_self, scrollLoop.eq_def, if_pos (hstay fuel)]

/-- Specification of the final truncation (lines 167-176): for a
non-negative cap the returned items are the `maxItems`-prefix and the total
is their count. -/
theorem finalizeResult_spec (st : HarvestState) (mi : Int) (hmi : 0 ≤ mi) :
    (finalizeResult st mi).items = st.all_feeds.take mi.toNat ∧
      (finalizeResult st mi).total = (finalizeResult st mi).items.length := by
  constructor
  · rw [finalizeResult]
    dsimp only
    by_cases h : (st.all_feeds.length : Int) > mi
    · rw [if_pos h, pySliceTo, if_pos hmi]
    · rw [if_neg h, List.take_of_length_le (by omega)]
  · rfl

/-- For every option in the static table, the singleton selection of its
label translates to exactly that option, with matching group index, and the
option validates. -/
theorem convert_mkSingle_known :
    ∀ g opts, FILTER_OPTIONS_MAP g = some opts → ∀ o ∈ opts,
      convert_to_internal_filters (mkSingle g o.text) = .ok [o] ∧
      o.filters_index = g ∧
      validate_internal_filter_option o = .ok () := by
  intro g opts h o ho
  simp only [FILTER_OPTIONS_MAP] at h
  split_ifs at h with h1 h2 h3 h4 h5 <;>
    (cases h; subst_vars; fin_cases ho <;> exact ⟨rfl, rfl, rfl⟩)

/-- A non-empty label absent from its group's table makes translation of the
singleton selection fail with the wrapped message naming the group index and
the label. -/
theorem convert_mkSingle_unknown :
    ∀ g opts label, FILTER_OPTIONS_MAP g = some opts →
      (∀ o ∈ opts, o.text ≠ label) → label ≠ "" →
      convert_to_internal_filters (mkSingle g label) =
        .error (filterGroupName g ++ "错误: 在筛选组 " ++ toString g
          ++ " 中未找到文本 " ++ pyQuote label) := by
  intro g opts label h hno hne
  have ht : truthyOptStr (some label) = true := by
    simp [truthyOptStr, hne]
  simp only [FILTER_OPTIONS_MAP] at h
  split_ifs at h with h1 h2 h3 h4 h5
  · cases h; subst h1
    have hfind : List.find? (fun o => o.text = label)
        ([⟨1, 1, "综合"⟩, ⟨1, 2, "最新"⟩, ⟨1, 3, "最多点赞"⟩, ⟨1, 4, "最多评论"⟩,
          ⟨1, 5, "最多收藏"⟩] : List InternalFilterOption) = none :=
      List.find?_eq_none.mpr (by intro x hx; simpa using hno x hx)
    simp [convert_to_internal_filters, mkSingle, convertFieldList, ht,
      find_internal_option, FILTER_OPTIONS_MAP, hfind, filterGroupName,
      truthyOptStr, hne]
    try rfl
  · cases h; subst h2
    have hfind : List.find? (fun o => o.text = label)
        ([⟨2, 1, "不限"⟩, ⟨2, 2, "视频"⟩, ⟨2, 3, "图文"⟩] : List InternalFilterOption) = none :=
      List.find?_eq_none.mpr (by intro x hx; simpa using hno x hx)
    simp [convert_to_internal_filters, mkSingle, convertFieldList, ht,
      find_internal_option, FILTER_OPTIONS_MAP, hfind, filterGroupName,
      truthyOptStr, hne]
    try rfl
  · cases h; subst h3
    have hfind : List.find? (fun o => o.text = label)
        ([⟨3, 1, "不限"⟩, ⟨3, 2, "一天内"⟩, ⟨3, 3, "一周内"⟩, ⟨3, 4, "半年内"⟩] : List InternalFilterOption) = none :=
      List.find?_eq_none.mpr (by intro x hx; simpa using hno x hx)
    simp [convert_to_internal_filters, mkSingle, convertFieldList, ht,
      find_internal_option, FILTER_OPTIONS_MAP, hfind, filterGroupName,
      truthyOptStr, hne]
    try rfl
  · cases h; subst h4
    have hfind : List.find? (fun o => o.text = label)
        ([⟨4, 1, "不限"⟩, ⟨4, 2, "已看过"⟩, ⟨4, 3, "未看过"⟩, ⟨4, 4, "已关注"⟩] : List InternalFilterOption) = none :=
      List.find?_eq_none.mpr (by intro x hx; simpa using hno x hx)
    simp [convert_to_internal_filters, mkSingle, convertFieldList, ht,
      find_internal_option, FILTER_OPTIONS_MAP, hfind, filterGroupName,
      truthyOptStr, hne]
    try rfl
  · cases h; subst h5
    have hfind : List.find? (fun o => o.text = label)
        ([⟨5, 1, "不限"⟩, ⟨5, 2, "同城"⟩, ⟨5, 3, "附近"⟩] : List InternalFilterOption) = none :=
      List.find?_eq_none.mpr (by intro x hx; simpa using hno x hx)
    simp [convert_to_internal_filters, mkSingle, convertFieldList, ht,
      find_internal_option, FILTER_OPTIONS_MAP, hfind, filterGroupName,
      truthyOptStr, hne]
    try rfl

/-! ## Claim theorems -/


/-- C10: a default-constructed `FilterOption` has all five fields set to the
first option of its group ('综合' for sort, '不限' for the rest), and translating
it yields exactly five internal options, one per group in ascending group
order, each with `tags_index = 1`; no field of a default selection behaves as
"do not apply this filter". -/
theorem C10_default_selection_translates_to_five_index1_options :
    ({} : FilterOption).sort_by = some "综合" ∧
    ({} : FilterOption).note_type = some "不限" ∧
    ({} : FilterOption).publish_time = some "不限" ∧
    ({} : FilterOption).search_scope = some "不限" ∧
    ({} : FilterOption).location = some "不限" ∧
    convert_to_internal_filters {} =
      .ok [⟨1, 1, "综合"⟩, ⟨2, 1, "不限"⟩, ⟨3, 1, "不限"⟩, ⟨4, 1, "不限"⟩, ⟨5, 1, "不限"⟩] :=
  ⟨rfl, rfl, rfl, rfl, rfl, rfl⟩

/-- C5: for every `(groupIndex, label)` pair in the static table, translating
the selection that sets only that field resolves to exactly that internal
option (so `filters_index` is the group index and `tags_index` the table's
option index), which also passes validation; and for a non-empty label absent
from the group, translation fails with the error message naming the group and
the label. -/
theorem C5_filter_translation_round_trip :
    (∀ g opts, FILTER_OPTIONS_MAP g = some opts → ∀ o ∈ opts,
        convert_to_internal_filters (mkSingle g o.text) = .ok [o] ∧
        o.filters_index = g ∧
        validate_internal_filter_option o = .ok ()) ∧
    (∀ g opts label, FILTER_OPTIONS_MAP g = some opts →
        (∀ o ∈ opts, o.text ≠ label) → label ≠ "" →
        convert_to_internal_filters (mkSingle g label) =
          .error (filterGroupName g ++ "错误: 在筛选组 " ++ toString g
            ++ " 中未找到文本 " ++ pyQuote label)) :=
  ⟨convert_mkSingle_known, convert_mkSingle_unknown⟩

/-- Witness for C5: group 1 label "最新" round-trips to option (1,2), and the
unknown label "不存在" in group 4 yields the wrapped lookup error. -/
theorem C5_filter_translation_round_trip_witness :
    convert_to_internal_filters (mkSingle 1 "最新") = .ok [⟨1, 2, "最新"⟩] ∧
    convert_to_internal_filters (mkSingle 4 "不存在") =
      .error (filterGroupName 4 ++ "错误: 在筛选组 " ++ toString (4 : Int)
        ++ " 中未找到文本 " ++ pyQuote "不存在") :=
  ⟨(C5_filter_translation_round_trip.1 1 _ rfl ⟨1, 2, "最新"⟩ (by decide)).1,
   C5_filter_translation_round_trip.2 4 _ "不存在" rfl (by decide) (by decide)⟩


/-- C1 (evaluation at the failing input): with the default selection every
group translates to its index-1 option, yet the applied sequence produced by
`_apply_filters` — and hence the sequence of filter options the orchestrator
clicks — still contains the index-1 options of groups 2 and 4: the
`list.remove` inside the `for` loop shifts the next element into the removed
slot where the live iterator skips it, so consecutive index-1 options are
not all elided. -/
theorem C1_applied_sequence_retains_index1_options :
    convert_to_internal_filters {} =
      .ok [⟨1, 1, "综合"⟩, ⟨2, 1, "不限"⟩, ⟨3, 1, "不限"⟩, ⟨4, 1, "不限"⟩, ⟨5, 1, "不限"⟩] ∧
    apply_filters {} = .ok [⟨2, 1, "不限"⟩, ⟨4, 1, "不限"⟩] ∧
    searchClicks quietWorld (some {}) 0 1 = [(2, 1), (4, 1)] ∧
    ((2 : Int), (1 : Int)) ∈ searchClicks quietWorld (some {}) 0 1 :=
  ⟨rfl, rfl, rfl, by decide⟩

/-- C2 (counterexample): the raw record `{}`, offered through the network
listener, is normalized with the fallback id `""` and inserted, and the
returned harvest then contains an item whose id is the empty string —
against the claim that no empty-id item is ever inserted. -/
theorem C2_counterexample_empty_id_item_returned :
    convert_item_to_feed (.obj []) = some (mkFeedId "") ∧
    (handle_response initialHarvestState (mkResp [.obj []])).all_feeds.map Feed.id = [""] ∧
    search emptyRecordWorld none 1 1
      = some { items := [mkFeedId ""], has_more := true, total := 1 } ∧
    (mkFeedId "").id = "" :=
  ⟨rfl, rfl, rfl, rfl⟩

/-- C2 (amended): a record whose normalization fails is dropped (never
inserted), and the accumulated ids are pairwise distinct — every id is
inserted at most once; however a raw record lacking an `id` key normalizes
to an item whose id is the empty string, which is inserted like any other
fresh id, so an accumulated item can have an empty id. -/
theorem C2_failed_records_dropped_and_ids_distinct (st : HarvestState)
    (item : JValue) (offers : List Feed)
    (hconv : convert_item_to_feed item = none) :
    offerRawItem st item = st ∧
    ((offers.foldl offerFeed initialHarvestState).all_feeds.map Feed.id).Nodup ∧
    "" ∈ (handle_response initialHarvestState (mkResp [.obj []])).all_feeds.map Feed.id := by
  refine ⟨offerRawItem_of_failed st item hconv, ?_, by decide⟩
  exact (foldl_offerFeed_invariant offers initialHarvestState
    (by simp [initialHarvestState]) (by simp [initialHarvestState])).2

/-- Witness for the amended C2: a record whose `noteCard` holds a bare
string makes normalization fail and is dropped; a duplicate-id offer stream
still yields pairwise-distinct accumulated ids. -/
theorem C2_failed_records_dropped_and_ids_distinct_witness :
    convert_item_to_feed (.obj [("noteCard", .str "zzz")]) = none ∧
    offerRawItem initialHarvestState (.obj [("noteCard", .str "zzz")]) = initialHarvestState ∧
    (([mkFeedId "a", mkFeedId "a"].foldl offerFeed initialHarvestState).all_feeds.map
      Feed.id).Nodup :=
  ⟨rfl,
   (C2_failed_records_dropped_and_ids_distinct initialHarvestState
      (.obj [("noteCard", .str "zzz")]) [] rfl).1,
   (C2_failed_records_dropped_and_ids_distinct initialHarvestState
      (.obj [("noteCard", .str "zzz")]) [mkFeedId "a", mkFeedId "a"] rfl).2.1⟩

/-- C3 (counterexample): a raw record missing its `noteCard` sub-object is
not normalized to `None`: the normalizer returns a defaulted item, and that
item does appear in the accumulator. -/
theorem C3_counterexample_missing_notecard_not_none :
    convert_item_to_feed (rawRecord "x") = some (mkFeedId "x") ∧
    convert_item_to_feed (rawRecord "x") ≠ none ∧
    offerRawItem initialHarvestState (rawRecord "x") = ⟨["x"], [mkFeedId "x"]⟩ :=
  ⟨rfl, fun h => Option.noConfusion h, rfl⟩

set_option maxHeartbeats 2000000 in
/-- C3 (amended): a raw object record missing its `noteCard` key is
normalized via fallback defaults rather than to `None` — whenever its
remaining top-level fields are well-typed it yields an item carrying the
all-default note card (and the defaulted id/modelType/trackId/xsecToken
extractions), and that item does appear in the accumulator when its id is
fresh; `None` arises only when an access inside the normalizer raises (for
example `noteCard` bound to a bare string); and the normalizer is total —
every record yields `None` or an item, an exception never escapes. -/
theorem C3_missing_notecard_defaults_and_never_raises
    (kvs : List (String × JValue))
    (hnc : jlookup kvs "noteCard" = none)
    (hid : okStrField kvs "id" = true)
    (hmt : okStrField kvs "modelType" = true)
    (htid : okOptStrField kvs "trackId" = true)
    (hxt : okOptStrField kvs "xsecToken" = true) :
    convert_item_to_feed (.obj kvs)
      = some ⟨strFieldValue kvs "id", strFieldValue kvs "modelType", defaultNoteCard,
          optStrFieldValue kvs "trackId", optStrFieldValue kvs "xsecToken"⟩ ∧
    offerRawItem initialHarvestState (.obj kvs)
      = ⟨[strFieldValue kvs "id"],
          [⟨strFieldValue kvs "id", strFieldValue kvs "modelType", defaultNoteCard,
            optStrFieldValue kvs "trackId", optStrFieldValue kvs "xsecToken"⟩]⟩ ∧
    convert_item_to_feed (.obj [("noteCard", .str "zzz")]) = none ∧
    (∀ item, convert_item_to_feed item = none ∨
      ∃ f, convert_item_to_feed item = some f) := by
  have hID : jlookup kvs "id" = none ∨ ∃ s, jlookup kvs "id" = some (.str s) := by
    unfold okStrField at hid
    cases hj : jlookup kvs "id" with
    | none => exact Or.inl rfl
    | some v =>
      rw [hj] at hid
      cases v <;> simp at hid <;> exact Or.inr ⟨_, rfl⟩
  have hMT : jlookup kvs "modelType" = none ∨
      ∃ s, jlookup kvs "modelType" = some (.str s) := by
    unfold okStrField at hmt
    cases hj : jlookup kvs "modelType" with
    | none => exact Or.inl rfl
    | some v =>
      rw [hj] at hmt
      cases v <;> simp at hmt <;> exact Or.inr ⟨_, rfl⟩
  have hTID : jlookup kvs "trackId" = none ∨ jlookup kvs "trackId" = some .null ∨
      ∃ s, jlookup kvs "trackId" = some (.str s) := by
    unfold okOptStrField at htid
    cases hj : jlookup kvs "trackId" with
    | none => exact Or.inl rfl
    | some v =>
      rw [hj] at htid
      cases v <;> simp at htid
      · exact Or.inr (Or.inl rfl)
      · exact Or.inr (Or.inr ⟨_, rfl⟩)
  have hXT : jlookup kvs "xsecToken" = none ∨ jlookup kvs "xsecToken" = some .null ∨
      ∃ s, jlookup kvs "xsecToken" = some (.str s) := by
    unfold okOptStrField at hxt
    cases hj : jlookup kvs "xsecToken" with
    | none => exact Or.inl rfl
    | some v =>
      rw [hj] at hxt
      cases v <;> simp at hxt
      · exact Or.inr (Or.inl rfl)
      · exact Or.inr (Or.inr ⟨_, rfl⟩)
  have htotal : ∀ item, convert_item_to_feed item = none ∨
      ∃ f, convert_item_to_feed item = some f := by
    intro item
    cases h : convert_item_to_feed item with
    | none => exact Or.inl rfl
    | some f => exact Or.inr ⟨f, rfl⟩
  have hconv : convert_item_to_feed (.obj kvs)
      = some ⟨strFieldValue kvs "id", strFieldValue kvs "modelType", defaultNoteCard,
          optStrFieldValue kvs "trackId", optStrFieldValue kvs "xsecToken"⟩ := by
    rcases hID with h1 | ⟨i, h1⟩ <;> rcases hMT with h2 | ⟨m, h2⟩ <;>
      rcases hTID with h3 | h3 | ⟨t, h3⟩ <;> rcases hXT with h4 | h4 | ⟨x, h4⟩ <;>
      (rw [convert_item_to_feed, convertItemToFeedErr]
       simp only [pyGet, hnc, h1, h2, h3, h4, Option.getD_some, Option.getD_none,
         strFieldValue, optStrFieldValue]
       rfl)
  refine ⟨hconv, ?_, rfl, htotal⟩
  rw [offerRawItem_some _ _ _ hconv, offerFeed_initial]

/-- Witness for the amended C3: the id-only record misses `noteCard` and is
normalized to the defaulted item (here with id "x"), which is inserted. -/
theorem C3_missing_notecard_defaults_and_never_raises_witness :
    convert_item_to_feed (.obj [("id", .str "x")])
      = some ⟨strFieldValue [("id", .str "x")] "id",
          strFieldValue [("id", .str "x")] "modelType", defaultNoteCard,
          optStrFieldValue [("id", .str "x")] "trackId",
          optStrFieldValue [("id", .str "x")] "xsecToken"⟩ ∧
    offerRawItem initialHarvestState (.obj [("id", .str "x")])
      = ⟨[strFieldValue [("id", .str "x")] "id"],
          [⟨strFieldValue [("id", .str "x")] "id",
            strFieldValue [("id", .str "x")] "modelType", defaultNoteCard,
            optStrFieldValue [("id", .str "x")] "trackId",
            optStrFieldValue [("id", .str "x")] "xsecToken"⟩]⟩ :=
  ⟨(C3_missing_notecard_defaults_and_never_raises [("id", .str "x")]
      rfl rfl rfl rfl rfl).1,
   (C3_missing_notecard_defaults_and_never_raises [("id", .str "x")]
      rfl rfl rfl rfl rfl).2.1⟩

/-- C4: a selection containing a label unknown to its group makes
translation fail with a message naming the group and the label, no partial
option list is produced — the search returns the filter-error result with
empty items, `success`/`hasMore` false and the message surfaced — and no
filter click is performed. -/
theorem C4_unknown_label_aborts_search (w : World) (mi : Int) (fuel : Nat)
    (f : FilterOption) (e : String)
    (hnav : w.navFail = false)
    (herr : convert_to_internal_filters f = .error e) :
    search w (some f) mi fuel
      = some { items := [], has_more := false, total := 0, success := false, message := e } ∧
    searchClicks w (some f) mi fuel = [] ∧
    (∀ g opts label, FILTER_OPTIONS_MAP g = some opts →
      (∀ o ∈ opts, o.text ≠ label) → label ≠ "" →
      convert_to_internal_filters (mkSingle g label) =
        .error (filterGroupName g ++ "错误: 在筛选组 " ++ toString g
          ++ " 中未找到文本 " ++ pyQuote label)) := by
  have happ : apply_filters f = .error e := by
    rw [apply_filters, herr]
    rfl
  refine ⟨?_, ?_, convert_mkSingle_unknown⟩
  · simp [search, searchWithTrace, hnav, happ]
  · simp [searchClicks, searchWithTrace, hnav, happ]

/-- Witness for C4: the unknown label "不存在" in the sort group aborts the
search with the wrapped message, empty items and no clicks. -/
theorem C4_unknown_label_aborts_search_witness :
    search quietWorld (some (mkSingle 1 "不存在")) 50 3
      = some (SearchResult.mk [] false 0 false
          ("排序依据错误: 在筛选组 1 中未找到文本 " ++ pyQuote "不存在")) ∧
    searchClicks quietWorld (some (mkSingle 1 "不存在")) 50 3 = [] :=
  ⟨(C4_unknown_label_aborts_search quietWorld 50 3 (mkSingle 1 "不存在")
      ("排序依据错误: 在筛选组 1 中未找到文本 " ++ pyQuote "不存在") rfl rfl).1,
   (C4_unknown_label_aborts_search quietWorld 50 3 (mkSingle 1 "不存在")
      ("排序依据错误: 在筛选组 1 中未找到文本 " ++ pyQuote "不存在") rfl rfl).2.1⟩

/-- C6: for every fixed sequence of offered items, offering an item whose id
has already been offered leaves the accumulated state entirely unchanged
(nothing is appended and the size does not grow), and the accumulated
sequence is exactly the first-offered item of each distinct id, in
first-offer order. -/
theorem C6_dedup_idempotent_first_offer_order (offers : List Feed) (f : Feed)
    (h : f.id ∈ offers.map Feed.id) :
    (offers ++ [f]).foldl offerFeed initialHarvestState
        = offers.foldl offerFeed initialHarvestState ∧
    ((offers ++ [f]).foldl offerFeed initialHarvestState).all_feeds.length
        = (offers.foldl offerFeed initialHarvestState).all_feeds.length ∧
    (offers.foldl offerFeed initialHarvestState).all_feeds = firstOffers [] offers := by
  have hseen : f.id ∈ (offers.foldl offerFeed initialHarvestState).seen_ids :=
    (foldl_offerFeed_seen offers initialHarvestState f.id).mpr (Or.inr h)
  have h1 : (offers ++ [f]).foldl offerFeed initialHarvestState
      = offers.foldl offerFeed initialHarvestState := by
    rw [List.foldl_append, List.foldl_cons, List.foldl_nil]
    exact offerFeed_of_seen _ _ hseen
  refine ⟨h1, by rw [h1], ?_⟩
  have h2 := foldl_offerFeed_firstOffers offers initialHarvestState
  simpa [initialHarvestState] using h2

/-- Witness for C6: re-offering id "a" after the stream `[a, b]` changes
nothing, and the accumulated sequence is the first-offer sequence. -/
theorem C6_dedup_idempotent_first_offer_order_witness :
    ([mkFeedId "a", mkFeedId "b"] ++ [mkFeedId "a"]).foldl offerFeed initialHarvestState
        = [mkFeedId "a", mkFeedId "b"].foldl offerFeed initialHarvestState ∧
    ([mkFeedId "a", mkFeedId "b"].foldl offerFeed initialHarvestState).all_feeds
        = firstOffers [] [mkFeedId "a", mkFeedId "b"] :=
  ⟨(C6_dedup_idempotent_first_offer_order [mkFeedId "a", mkFeedId "b"] (mkFeedId "a")
      (by decide)).1,
   (C6_dedup_idempotent_first_offer_order [mkFeedId "a", mkFeedId "b"] (mkFeedId "a")
      (by decide)).2.2⟩

/-- C7: on the successful exit of the scroll loop (target met after `k`
surviving iterations), the returned result is the finalized state: its items
are exactly the first `min(length, maxItems)` accumulated items in original
order (a no-op when the count is already within bound), and its total equals
the number of returned items. -/
theorem C7_success_returns_first_min_items (w : World) (f : Option FilterOption)
    (mi : Int) (fuel k : Nat)
    (hnav : w.navFail = false) (hfilt : filterStagePasses w f)
    (hpre : w.preLoopFail = false) (hmi : 0 ≤ mi)
    (hlt : ∀ j < k, ((stateUpTo w j).all_feeds.length : Int) < mi)
    (hnf : ∀ j < k, iterFail w j = false)
    (hexit : ¬ ((stateUpTo w k).all_feeds.length : Int) < mi)
    (hfuel : k ≤ fuel) :
    search w f mi fuel = some (finalizeResult (stateUpTo w k) mi) ∧
    (finalizeResult (stateUpTo w k) mi).items
      = (stateUpTo w k).all_feeds.take mi.toNat ∧
    (finalizeResult (stateUpTo w k) mi).items.length
      = min mi.toNat (stateUpTo w k).all_feeds.length ∧
    (finalizeResult (stateUpTo w k) mi).total
      = (finalizeResult (stateUpTo w k) mi).items.length ∧
    (((stateUpTo w k).all_feeds.length : Int) ≤ mi →
      (finalizeResult (stateUpTo w k) mi).items = (stateUpTo w k).all_feeds) := by
  have hmain : searchMainPhase w mi fuel
      = .result (finalizeResult (stateUpTo w k) mi) := by
    rw [searchMainPhase, hpre]
    simp only [Bool.false_eq_true, if_false]
    exact scrollLoop_exit w mi k fuel hfuel hlt hnf hexit
  obtain ⟨hitems, htot⟩ := finalizeResult_spec (stateUpTo w k) mi hmi
  refine ⟨?_, hitems, ?_, htot, ?_⟩
  · cases f with
    | none => simp [search, searchWithTrace, hnav, hmain]
    | some ff =>
      obtain ⟨⟨l, hl⟩, hui⟩ := hfilt
      simp [search, searchWithTrace, hnav, hl, hui, hmain]
  · rw [hitems, List.length_take]
  · intro hle
    rw [hitems, List.take_of_length_le (by omega)]

/-- Witness for C7: two harvested items against a cap of 1 exit immediately
and are truncated to the 1-prefix. -/
theorem C7_success_returns_first_min_items_witness :
    search twoRecordWorld none 1 9 = some (finalizeResult (stateUpTo twoRecordWorld 0) 1) ∧
    (finalizeResult (stateUpTo twoRecordWorld 0) 1).items
      = (stateUpTo twoRecordWorld 0).all_feeds.take (1 : Int).toNat :=
  ⟨(C7_success_returns_first_min_items twoRecordWorld none 1 9 0 rfl trivial rfl (by decide)
      (fun j hj => absurd hj (Nat.not_lt_zero j))
      (fun j hj => absurd hj (Nat.not_lt_zero j)) (by decide) (by decide)).1,
   (C7_success_returns_first_min_items twoRecordWorld none 1 9 0 rfl trivial rfl (by decide)
      (fun j hj => absurd hj (Nat.not_lt_zero j))
      (fun j hj => absurd hj (Nat.not_lt_zero j)) (by decide) (by decide)).2.1⟩

/-- C8: every failure other than a filter-translation error — navigation
failure, a filter-UI interaction failure, the pre-loop wait failure, or a
scroll-iteration failure — makes `search` return the items accumulated up to
the failure point with `hasMore=false`, and the exception never escapes. -/
theorem C8_failures_return_partial_results (w : World) (f : Option FilterOption)
    (mi : Int) (fuel : Nat) :
    (w.navFail = true →
      search w f mi fuel = some { items := [], has_more := false, total := 0 }) ∧
    (∀ ff l, w.navFail = false → f = some ff → apply_filters ff = .ok l →
      w.filterUIFail = true →
      search w f mi fuel = some { items := [], has_more := false, total := 0 }) ∧
    (w.navFail = false → filterStagePasses w f → w.preLoopFail = true →
      search w f mi fuel
        = some { items := (stateAfterPreLoop w).all_feeds, has_more := false, total := 0 }) ∧
    (∀ k, w.navFail = false → filterStagePasses w f → w.preLoopFail = false →
      (∀ j, j ≤ k → ((stateUpTo w j).all_feeds.length : Int) < mi) →
      (∀ j, j < k → iterFail w j = false) → iterFail w k = true → k < fuel →
      search w f mi fuel
        = some { items := (stateUpTo w (k + 1)).all_feeds, has_more := false, total := 0 }) := by
  refine ⟨?_, ?_, ?_, ?_⟩
  · intro h
    simp [search, searchWithTrace, h, initialHarvestState]
  · intro ff l hnav hf happ hui
    subst hf
    simp [search, searchWithTrace, hnav, happ, hui, initialHarvestState]
  · intro hnav hfilt hpre
    have hmain : searchMainPhase w mi fuel = .raised (stateAfterPreLoop w).all_feeds := by
      simp [searchMainPhase, hpre]
    cases f with
    | none => simp [search, searchWithTrace, hnav, hmain]
    | some ff =>
      obtain ⟨⟨l, hl⟩, hui⟩ := hfilt
      simp [search, searchWithTrace, hnav, hl, hui, hmain]
  · intro k hnav hfilt hpre hle hnf hfail hk
    have hmain : searchMainPhase w mi fuel = .raised (stateUpTo w (k + 1)).all_feeds := by
      rw [searchMainPhase, hpre]
      simp only [Bool.false_eq_true, if_false]
      exact scrollLoop_fail w mi k fuel hk (fun j hj => hle j hj) hnf hfail
    cases f with
    | none => simp [search, searchWithTrace, hnav, hmain]
    | some ff =>
      obtain ⟨⟨l, hl⟩, hui⟩ := hfilt
      simp [search, searchWithTrace, hnav, hl, hui, hmain]

/-- Witness for C8: a failing first scroll iteration returns the (empty)
partial result with `hasMore=false`. -/
theorem C8_failures_return_partial_results_witness :
    search failWorld none 1 3 = some { items := [], has_more := false, total := 0 } :=
  (C8_failures_return_partial_results failWorld none 1 3).2.2.2 0 rfl trivial rfl
    (fun j hj => by
      have hj0 : j = 0 := Nat.le_zero.mp hj
      subst hj0
      decide)
    (fun j hj => absurd hj (Nat.not_lt_zero j)) rfl (by decide)

/-- C9: the scroll loop's only exit condition is reaching the item target:
in any run where the accumulated count stays below `maxItems`, no new items
arrive and no failure occurs, the loop never terminates (every fuel bound is
exhausted). -/
theorem C9_scroll_loop_only_exit_is_target (w : World) (f : Option FilterOption)
    (mi : Int) (fuel : Nat)
    (hnav : w.navFail = false) (hfilt : filterStagePasses w f)
    (hpre : w.preLoopFail = false)
    (hstay : ∀ k, ((stateUpTo w k).all_feeds.length : Int) < mi)
    (hnofail : ∀ k, iterFail w k = false) :
    search w f mi fuel = none := by
  have hmain : searchMainPhase w mi fuel = .diverge := by
    rw [searchMainPhase, hpre]
    simp only [Bool.false_eq_true, if_false]
    exact scrollLoop_diverge w mi hstay hnofail fuel
  cases f with
  | none => simp [search, searchWithTrace, hnav, hmain]
  | some ff =>
    obtain ⟨⟨l, hl⟩, hui⟩ := hfilt
    simp [search, searchWithTrace, hnav, hl, hui, hmain]

/-- Witness for C9: an upstream that never delivers anything keeps a
target-1 search running for any fuel bound (here 7). -/
theorem C9_scroll_loop_only_exit_is_target_witness :
    search quietWorld none 1 7 = none :=
  C9_scroll_loop_only_exit_is_target quietWorld none 1 7 rfl trivial rfl
    (fun k => by
      have h : stateUpTo quietWorld k = initialHarvestState := by
        simp [stateUpTo, quietWorld, stateAfterInitialBlob, stateAfterPreLoop]
      rw [h]
      decide)
    (fun k => by simp [iterFail, quietWorld])

end XhsSearch
